import Mathlib

/-!
# SqliteHelper and BoostLogger

A verification development for the two headers of the repository:

* `SqliteHelper/SqliteHelper.hpp`: the singleton that owns one `sqlite3*`
  and offers `setDbPath`, `connect`, `disconnect`, `execute`;
* `BoostLogger/BoostLogger.hpp`: the severity enumeration, its stream
  operator, the shared filter, the shared format and the two sinks.

The sqlite3 library and Boost.Log are outside the repository.  The sqlite3
engine is a parameter of the model (an arbitrary transition system that
answers `sqlite3_open`, `sqlite3_close` and `sqlite3_exec`); for Boost.Log
the model follows the documented behaviour of the expressions the source
writes down (typed attribute extraction, positional format placeholders).
-/

namespace Sqlite

/-- The identity of a `sqlite3` connection object; `sqlite3*` is
`Option Handle`, with `none` for `nullptr`. -/
abbrev Handle := Nat

/-- The result code `SQLITE_OK` of `sqlite3.h`. -/
def SQLITE_OK : Int := 0

/-- The sqlite3 engine, as far as the class uses it.  `σ` is the engine's own
state, so that its answers may differ from call to call.

* `sqlite3_open st filename old` answers a result code and the value it
  leaves in `*ppDb` (`old` is what `*ppDb` held before the call);
* `sqlite3_close st db` answers a result code;
* `sqlite3_exec st db sql` answers a result code and the value it leaves in
  `*errmsg` (`none` for a null pointer). -/
structure Engine (σ : Type) where
  sqlite3_open : σ → String → Option Handle → Int × Option Handle × σ
  sqlite3_close : σ → Option Handle → Int × σ
  sqlite3_exec : σ → Option Handle → String → Int × Option String × σ

/-- One call made to the engine. -/
inductive Call where
  | sqlite3_open (filename : String)
  | sqlite3_close (db : Option Handle)
  | sqlite3_exec (db : Option Handle) (sql : String)
  deriving DecidableEq, Repr

/-- Everything outside the instance: the engine's state, the calls made to it
so far (latest last), and the handles that an open call reporting `SQLITE_OK`
has handed out and no close call reporting `SQLITE_OK` has taken back. -/
structure World (σ : Type) where
  eng : σ
  calls : List Call
  live : List Handle

/-- The data members of the class (lines 76-80). -/
structure SqliteHelper where
  m_dbPath : String
  m_db : Option Handle
  deriving DecidableEq, Repr

/-- The instance as `getInstance` first builds it: `m_dbPath` default
constructed, `m_db = nullptr`. -/
def getInstance : SqliteHelper := { m_dbPath := "", m_db := none }

/-- How a member function call ends. `undefined` is the construction of a
`std::string` from a null `char*` in `execute`. -/
inductive Outcome where
  | returned
  | threw (what : String)
  | undefined
  deriving DecidableEq, Repr

/-- The handles open after an open call. -/
def liveAfterOpen (live : List Handle) (rc : Int) (out : Option Handle) : List Handle :=
  match out with
  | some h => if rc = SQLITE_OK then h :: live else live
  | none => live

/-- The handles open after a close call. -/
def liveAfterClose (live : List Handle) (rc : Int) (db : Option Handle) : List Handle :=
  match db with
  | some h => if rc = SQLITE_OK then live.filter (fun x => x != h) else live
  | none => live

/-- Method `setDbPath` (lines 17-19). -/
def setDbPath (self : SqliteHelper) (dbPath : String) : SqliteHelper :=
  { self with m_dbPath := dbPath }

/-- Method `connect` (lines 22-32). -/
def connect {σ : Type} (E : Engine σ) (self : SqliteHelper) (w : World σ) :
    Outcome × SqliteHelper × World σ :=
  if self.m_dbPath.length = 0 then
    (Outcome.threw "db path is empty", self, w)
  else
    match E.sqlite3_open w.eng self.m_dbPath self.m_db with
    | (rc, out, eng1) =>
      let w1 : World σ :=
        { eng := eng1
          calls := w.calls ++ [Call.sqlite3_open self.m_dbPath]
          live := liveAfterOpen w.live rc out }
      let self1 : SqliteHelper := { self with m_db := out }
      if rc ≠ SQLITE_OK then
        (Outcome.threw "can't open db", self1, w1)
      else
        (Outcome.returned, self1, w1)

/-- Method `disconnect` (lines 35-41). -/
def disconnect {σ : Type} (E : Engine σ) (self : SqliteHelper) (w : World σ) :
    Outcome × SqliteHelper × World σ :=
  match E.sqlite3_close w.eng self.m_db with
  | (rc, eng1) =>
    let w1 : World σ :=
      { eng := eng1
        calls := w.calls ++ [Call.sqlite3_close self.m_db]
        live := liveAfterClose w.live rc self.m_db }
    if rc ≠ SQLITE_OK then
      (Outcome.threw "can't close db", self, w1)
    else
      (Outcome.returned, self, w1)

/-- Method `execute` (lines 44-53). -/
def execute {σ : Type} (E : Engine σ) (self : SqliteHelper) (w : World σ) (sql : String) :
    Outcome × SqliteHelper × World σ :=
  match E.sqlite3_exec w.eng self.m_db sql with
  | (rc, errMsg, eng1) =>
    let w1 : World σ :=
      { eng := eng1
        calls := w.calls ++ [Call.sqlite3_exec self.m_db sql]
        live := w.live }
    if rc ≠ SQLITE_OK then
      match errMsg with
      | some e => (Outcome.threw ("can't execute sql: " ++ e), self, w1)
      | none => (Outcome.undefined, self, w1)
    else
      (Outcome.returned, self, w1)

/-- One call on the instance. -/
inductive Op where
  | setDbPath (dbPath : String)
  | connect
  | disconnect
  | execute (sql : String)
  deriving DecidableEq, Repr

/-- One call on the instance, in a world. -/
def step {σ : Type} (E : Engine σ) (c : SqliteHelper × World σ) :
    Op → Outcome × SqliteHelper × World σ
  | Op.setDbPath dbPath => (Outcome.returned, setDbPath c.1 dbPath, c.2)
  | Op.connect => connect E c.1 c.2
  | Op.disconnect => disconnect E c.1 c.2
  | Op.execute sql => execute E c.1 c.2 sql

/-- Whether the call ended in a way after which the program goes on: it
returned, or threw an exception the caller may catch. -/
def Outcome.defined : Outcome → Bool
  | Outcome.undefined => false
  | _ => true

/-- Every configuration a sequence of calls passes through, the starting one
first.  A thrown exception is caught by the caller, who goes on with the next
call; the sequence ends where a call has undefined behaviour. -/
def trace {σ : Type} (E : Engine σ) : List Op → SqliteHelper × World σ →
    List (SqliteHelper × World σ)
  | [], c => [c]
  | op :: ops, c =>
    c :: (if (step E c op).1.defined then trace E ops (step E c op).2 else [])

/-- The configuration after a sequence of calls (the last one of `trace`). -/
def run {σ : Type} (E : Engine σ) : List Op → SqliteHelper × World σ →
    SqliteHelper × World σ
  | [], c => c
  | op :: ops, c =>
    if (step E c op).1.defined then run E ops (step E c op).2 else c

/-- Every `connect` of the sequence is issued while no handle is open. -/
def connectOnlyWhenClosed {σ : Type} (E : Engine σ) : List Op → SqliteHelper × World σ → Bool
  | [], _ => true
  | op :: ops, c =>
    (match op with
      | Op.connect => c.2.live.isEmpty
      | _ => true) &&
    (if (step E c op).1.defined then connectOnlyWhenClosed E ops (step E c op).2 else true)

/-- The handles open are at most the one the instance holds. -/
def HoldsLive {σ : Type} (c : SqliteHelper × World σ) : Prop :=
  c.2.live = [] ∨ ∃ h, c.2.live = [h] ∧ c.1.m_db = some h

/-- The world before any call: no call made, no handle open. -/
def World.initial {σ : Type} (eng : σ) : World σ := { eng := eng, calls := [], live := [] }

/-- An engine that opens every file: the n-th open reports `SQLITE_OK` and
hands out handle `n`; close and exec report `SQLITE_OK`. Its state is the
next handle. -/
def countingEngine : Engine Nat where
  sqlite3_open := fun n _ _ => (0, some n, n + 1)
  sqlite3_close := fun n _ => (0, n)
  sqlite3_exec := fun n _ _ => (0, none, n)

/-- An engine that cannot open the file: as sqlite3 does, it reports
`SQLITE_CANTOPEN` (14) and still leaves a connection object in `*ppDb`. -/
def cantOpenEngine : Engine Unit where
  sqlite3_open := fun _ _ _ => (14, some 7, ())
  sqlite3_close := fun _ _ => (0, ())
  sqlite3_exec := fun _ _ _ => (0, none, ())

/-- An engine that, as sqlite3 does, answers `sqlite3_exec` on a null
connection with `SQLITE_MISUSE` (21) and leaves `*errmsg` null. -/
def misuseEngine : Engine Unit where
  sqlite3_open := fun _ _ _ => (0, some 1, ())
  sqlite3_close := fun _ _ => (0, ())
  sqlite3_exec := fun _ db _ =>
    match db with
    | none => (21, none, ())
    | some _ => (0, none, ())

/-- An engine that opens the file and then, as sqlite3 does when it cannot
allocate the message, answers `sqlite3_exec` with `SQLITE_NOMEM` (7) and
leaves `*errmsg` null. -/
def nomemEngine : Engine Unit where
  sqlite3_open := fun _ _ _ => (0, some 1, ())
  sqlite3_close := fun _ _ => (0, ())
  sqlite3_exec := fun _ _ _ => (7, none, ())

/-- An engine whose `sqlite3_exec` rejects every statement with a message. -/
def rejectingEngine : Engine Unit where
  sqlite3_open := fun _ _ _ => (0, some 1, ())
  sqlite3_close := fun _ _ => (0, ())
  sqlite3_exec := fun _ _ _ => (1, some "near \"SELEC\": syntax error", ())

end Sqlite

namespace Log

/-- The enumeration `severity_level` (lines 20-28). -/
inductive severity_level where
  | trace
  | debug
  | info
  | warning
  | error
  | fatal
  deriving DecidableEq, Repr

/-- The value of each enumerator: none has an initialiser, so they count from
zero in declaration order. -/
def severity_level.toInt : severity_level → Int
  | severity_level.trace => 0
  | severity_level.debug => 1
  | severity_level.info => 2
  | severity_level.warning => 3
  | severity_level.error => 4
  | severity_level.fatal => 5

/-- The table `strings` of `operator<<` (lines 33-41). -/
def strings : List String := ["trace", "debug", "info", "warning", "error", "fatal"]

/-- The conversion `static_cast< std::size_t >` of an `int`, for a 64-bit
`size_t`. -/
def static_cast_size_t (v : Int) : Nat := (v % 2 ^ 64).toNat

/-- The function `operator<<` for `severity_level` (lines 31-49), on the text
written to the stream so far. `level` is the integer the enumeration object
holds, since a cast can put any `int` there. -/
def operator_shl (strm : String) (level : Int) : String :=
  if h : static_cast_size_t level < strings.length then
    strm ++ strings.get ⟨static_cast_size_t level, h⟩
  else
    strm ++ toString level

namespace trivial

/-- The enumeration `boost::log::trivial::severity_level` of Boost.Log
(`boost/log/trivial.hpp`), which `initFilter` and `initFormat` name. -/
inductive severity_level where
  | trace
  | debug
  | info
  | warning
  | error
  | fatal
  deriving DecidableEq, Repr

/-- The value of each enumerator of `boost::log::trivial::severity_level`. -/
def severity_level.toInt : severity_level → Int
  | severity_level.trace => 0
  | severity_level.debug => 1
  | severity_level.info => 2
  | severity_level.warning => 3
  | severity_level.error => 4
  | severity_level.fatal => 5

/-- What Boost.Log's own `operator<<` writes for a
`boost::log::trivial::severity_level`. -/
def to_string : severity_level → String
  | severity_level.trace => "trace"
  | severity_level.debug => "debug"
  | severity_level.info => "info"
  | severity_level.warning => "warning"
  | severity_level.error => "error"
  | severity_level.fatal => "fatal"

end trivial

/-- An attribute value of a log record, with the C++ type it was stored under.
Boost.Log hands a value out only to a reader that asks for that type. The
time stamp, the thread id and the process id are kept as the text their
stream output writes (for the time stamp, under the pattern
"%Y-%m-%d %H:%M:%S.%f" of `initFormat`). -/
inductive attribute_value where
  | ptime (text : String)
  | thread_id (text : String)
  | process_id (text : String)
  | process_name (value : String)
  | trivial_severity (level : trivial.severity_level)
  | severity (level : severity_level)
  deriving DecidableEq, Repr

/-- A log record: its attribute values by name (the first entry of a name is
the one in force) and its message. -/
structure record where
  attribute_values : List (String × attribute_value)
  message : String
  deriving DecidableEq, Repr

/-- The attribute value of a record under a name. -/
def record.find (r : record) (name : String) : Option attribute_value :=
  (r.attribute_values.find? (fun p => p.1 == name)).map (fun p => p.2)

/-- The placeholder `attr< boost::log::trivial::severity_level >(name)`: the
value when the record has one of that type under the name, nothing when the
name is missing or the value has another type. -/
def attr_trivial_severity (name : String) (r : record) : Option trivial.severity_level :=
  match r.find name with
  | some (attribute_value.trivial_severity l) => some l
  | _ => none

/-- The placeholder `format_date_time< boost::posix_time::ptime >(name, ...)`. -/
def attr_ptime (name : String) (r : record) : Option String :=
  match r.find name with
  | some (attribute_value.ptime t) => some t
  | _ => none

/-- The placeholder `attr< current_thread_id::value_type >(name)`. -/
def attr_thread_id (name : String) (r : record) : Option String :=
  match r.find name with
  | some (attribute_value.thread_id t) => some t
  | _ => none

/-- The placeholder `attr< current_process_id::value_type >(name)`. -/
def attr_process_id (name : String) (r : record) : Option String :=
  match r.find name with
  | some (attribute_value.process_id t) => some t
  | _ => none

/-- The placeholder `attr< current_process_name::value_type >(name)`. -/
def attr_process_name (name : String) (r : record) : Option String :=
  match r.find name with
  | some (attribute_value.process_name t) => some t
  | _ => none

/-- A placeholder in a formatter writes its value, or nothing when it has
none. -/
def put (v : Option String) : String := v.getD ""

/-- A filter of Boost.Log: a predicate on records. -/
abbrev filter := record → Bool

/-- A formatter of Boost.Log: the text it writes for a record. -/
abbrev formatter := record → String

/-- A piece of a parsed format string: literal text, or the positional
placeholder `%N%`. -/
inductive format_element where
  | literal (text : String)
  | positional (n : Nat)
  deriving DecidableEq, Repr

/-- The literal text gathered so far, as an element (none when empty). -/
def flush (lit : List Char) : List format_element :=
  if lit.isEmpty then [] else [format_element.literal (String.mk lit)]

/-- The scanner of the format string. `lit` is the literal text read since the
last placeholder; `arg` is `some n` inside a placeholder, after the opening
percent sign, with `n` the digits read so far. -/
def parse_format : List Char → List Char → Option Nat → List format_element
  | [], lit, _ => flush lit
  | c :: cs, lit, none =>
    if c = '%' then flush lit ++ parse_format cs [] (some 0)
    else parse_format cs (lit ++ [c]) none
  | c :: cs, lit, some n =>
    if c = '%' then
      (if n = 0 then [format_element.literal "%"] else [format_element.positional n])
        ++ parse_format cs [] none
    else if c.isDigit then parse_format cs lit (some (10 * n + (c.toNat - '0'.toNat)))
    else parse_format cs lit none

/-- The expression `expressions::format(fmt) % a1 % a2 % ...`: the format
string with each `%N%` replaced by what the N-th argument writes for the
record. -/
def expressions_format (fmt : String) (args : List formatter) : formatter :=
  fun r =>
    String.join ((parse_format fmt.data [] none).map (fun e =>
      match e with
      | format_element.literal t => t
      | format_element.positional n => (args.getD (n - 1) (fun _ => "")) r))

/-- The backend of a sink. -/
inductive backend where
  | text_file
  | text_ostream_clog
  deriving DecidableEq, Repr

/-- A sink frontend: its backend, the filter and the formatter set on it
(`none` until `set_filter` / `set_formatter` is called: such a sink accepts
every record and writes the message alone). -/
structure sink where
  m_backend : backend
  m_filter : Option filter
  m_formatter : Option formatter

/-- The logging core: the sinks added and the names of the global attributes
added. -/
structure core where
  sinks : List sink
  global_attributes : List String

/-- The data members of `BoostLogger` (lines 80-95), `none` for a null
`shared_ptr`. -/
structure BoostLogger where
  m_fileSink : Option sink
  m_consoleSink : Option sink
  m_filter : Option filter
  m_format : Option formatter

/-- A `BoostLogger` before any `init...` call. -/
def BoostLogger.fresh : BoostLogger :=
  { m_fileSink := none, m_consoleSink := none, m_filter := none, m_format := none }

/-- The core before any sink or attribute is added. -/
def core.empty : core := { sinks := [], global_attributes := [] }

/-- Method `initFilter` (lines 147-150):
`boost::log::trivial::severity >= boost::log::trivial::info`. The keyword
`boost::log::trivial::severity` reads the attribute "Severity" as a
`boost::log::trivial::severity_level`; without such a value the comparison is
false. -/
def initFilter (self : BoostLogger) : BoostLogger :=
  { self with
    m_filter := some (fun r =>
      match attr_trivial_severity "Severity" r with
      | some l => decide (trivial.severity_level.info.toInt ≤ l.toInt)
      | none => false) }

/-- Method `initFormat` (lines 153-165). -/
def initFormat (self : BoostLogger) (c : core) : BoostLogger × core :=
  ({ self with
      m_format := some (expressions_format "[%1%] [%2%] [%3%] [%4%] [%5%] %6%"
        [ fun r => put (attr_ptime "TimeStamp" r),
          fun r => put (attr_thread_id "ThreadID" r),
          fun r => put ((attr_trivial_severity "Severity" r).map trivial.to_string),
          fun r => put (attr_process_id "ProcessID" r),
          fun r => put (attr_process_name "ProcessName" r),
          fun r => r.message ]) },
   { c with global_attributes := c.global_attributes ++ ["TimeStamp"] })

/-- Method `initFileSink` (lines 103-123). -/
def initFileSink (self : BoostLogger) (c : core) : BoostLogger × core :=
  let s : sink :=
    { m_backend := backend.text_file, m_filter := self.m_filter, m_formatter := self.m_format }
  ({ self with m_fileSink := some s }, { c with sinks := c.sinks ++ [s] })

/-- Method `initConsoleSink` (lines 126-144). -/
def initConsoleSink (self : BoostLogger) (c : core) : BoostLogger × core :=
  let s : sink :=
    { m_backend := backend.text_ostream_clog, m_filter := self.m_filter,
      m_formatter := self.m_format }
  ({ self with m_consoleSink := some s }, { c with sinks := c.sinks ++ [s] })

/-- Modelled from the spec: `BoostLogger::init` is declared (line 61) but its
body is not in the source. Section 2 of the spec fixes the order: the shared
filter and format are created first, then the two sinks. -/
def init (self : BoostLogger) (c : core) : BoostLogger × core :=
  let a := initFormat (initFilter self) c
  let b := initFileSink a.1 a.2
  initConsoleSink b.1 b.2

/-- Whether a sink accepts a record. -/
def sink.accepts (s : sink) (r : record) : Bool :=
  match s.m_filter with
  | some f => f r
  | none => true

/-- What a sink writes for a record it accepts. -/
def sink.render (s : sink) (r : record) : String :=
  match s.m_formatter with
  | some f => f r
  | none => r.message

/-- The record of `BOOST_LOG_SEV(m_logger, level) << message`: `m_logger` is a
`severity_logger<severity_level>` (line 83), so the record carries "Severity"
as a value of the enumeration `severity_level` of this file, ahead of the
values `ambient` of the global and thread attributes. -/
def open_record (level : severity_level) (message : String)
    (ambient : List (String × attribute_value)) : record :=
  { attribute_values := ("Severity", attribute_value.severity level) :: ambient,
    message := message }

/-- Writing through the logger: the line each sink of the core delivers to its
backend, for the sinks that accept the record. -/
def write (c : core) (level : severity_level) (message : String)
    (ambient : List (String × attribute_value)) : List (backend × String) :=
  (c.sinks.filter (fun s => s.accepts (open_record level message ambient))).map
    (fun s => (s.m_backend, s.render (open_record level message ambient)))

/-- A record that carries the six fields under the types `initFormat` reads. -/
def fixed_record (ts tid : String) (s : trivial.severity_level) (pid pn m : String) : record :=
  { attribute_values :=
      [ ("TimeStamp", attribute_value.ptime ts),
        ("ThreadID", attribute_value.thread_id tid),
        ("Severity", attribute_value.trivial_severity s),
        ("ProcessID", attribute_value.process_id pid),
        ("ProcessName", attribute_value.process_name pn) ],
    message := m }

end Log


/-! ## Theorems: SqliteHelper -/

namespace Sqlite

/-- The text `execute` throws is none of the texts `connect` and `disconnect`
throw. -/
theorem execute_text_ne (e : String) :
    "can't execute sql: " ++ e ≠ "db path is empty" ∧
    "can't execute sql: " ++ e ≠ "can't open db" ∧
    "can't execute sql: " ++ e ≠ "can't close db" := by
  refine ⟨?_, ?_, ?_⟩ <;>
  · intro h
    have h2 := congrArg String.data h
    simp [String.data_append] at h2

/-- The text `execute` throws is not empty. -/
theorem execute_text_ne_empty (e : String) : "can't execute sql: " ++ e ≠ "" := by
  intro h
  have h2 := congrArg String.data h
  simp [String.data_append] at h2

/-- The stored path is empty exactly when its length is zero. -/
theorem length_eq_zero_iff (s : String) : s.length = 0 ↔ s = "" := by
  constructor
  · intro h
    apply String.ext
    have h2 : s.data.length = 0 := h
    exact List.length_eq_zero.mp h2
  · intro h
    subst h
    rfl

/-- With an empty stored path `connect` throws before it reaches the engine. -/
theorem connect_of_empty {σ : Type} (E : Engine σ) (self : SqliteHelper) (w : World σ)
    (h : self.m_dbPath = "") :
    connect E self w = (Outcome.threw "db path is empty", self, w) := by
  unfold connect
  simp [h]

/-- C1: on an instance whose stored path is the empty string, `connect`
throws "db path is empty", makes no call to the engine (the world, with its
call log and engine state, is what it was) and leaves both data members as
they were. -/
theorem connect_empty_path {σ : Type} (E : Engine σ) (self : SqliteHelper) (w : World σ)
    (h : self.m_dbPath = "") :
    connect E self w = (Outcome.threw "db path is empty", self, w) := by
  unfold connect
  simp [h]

/-- Witness of C1: the instance as first built, on the counting engine. -/
theorem connect_empty_path_witness :
    getInstance.m_dbPath = "" ∧
    connect countingEngine getInstance (World.initial 1) =
      (Outcome.threw "db path is empty", getInstance, World.initial 1) :=
  ⟨rfl, connect_empty_path countingEngine getInstance (World.initial 1) rfl⟩

/-- What `execute` does, by the engine's answer. -/
theorem execute_cases {σ : Type} (E : Engine σ) (self : SqliteHelper) (w : World σ)
    (sql : String) :
    (execute E self w sql).2.1 = self ∧
    (execute E self w sql).2.2.calls = w.calls ++ [Call.sqlite3_exec self.m_db sql] ∧
    (execute E self w sql).2.2.live = w.live ∧
    ((E.sqlite3_exec w.eng self.m_db sql).1 = SQLITE_OK →
      (execute E self w sql).1 = Outcome.returned) ∧
    (∀ e, (E.sqlite3_exec w.eng self.m_db sql).1 ≠ SQLITE_OK →
      (E.sqlite3_exec w.eng self.m_db sql).2.1 = some e →
      (execute E self w sql).1 = Outcome.threw ("can't execute sql: " ++ e)) ∧
    ((E.sqlite3_exec w.eng self.m_db sql).1 ≠ SQLITE_OK →
      (E.sqlite3_exec w.eng self.m_db sql).2.1 = none →
      (execute E self w sql).1 = Outcome.undefined) := by
  unfold execute
  rcases hx : E.sqlite3_exec w.eng self.m_db sql with ⟨rc, msg, eng1⟩
  by_cases hrc : rc = SQLITE_OK
  · simp [hrc]
  · cases msg <;> simp [hrc]

/-- Counterexample to C2: on the instance as first built, and on one whose
path has been set, `execute` hands the null handle to the engine; the engine
answers `SQLITE_MISUSE` without a message and the call ends in the
construction of a string from a null pointer, not in the configuration or
connection error. -/
theorem execute_before_connect_counterexample :
    (execute misuseEngine getInstance (World.initial ()) "SELECT 1").1 = Outcome.undefined ∧
    (execute misuseEngine (setDbPath getInstance "a.db") (World.initial ()) "SELECT 1").1
      = Outcome.undefined ∧
    (execute misuseEngine getInstance (World.initial ()) "SELECT 1").2.2.calls
      = [Call.sqlite3_exec none "SELECT 1"] := by
  refine ⟨?_, ?_, ?_⟩ <;> rfl

/-- C2 (amended): `execute` on an instance whose handle is null makes no check
of its own. It hands the text and the null handle to the engine; it returns
normally exactly when the engine reports `SQLITE_OK`; when the engine reports
another code together with a message it throws "can't execute sql: " followed
by the message; and it never throws the configuration error or a connection
error. -/
theorem execute_null_handle {σ : Type} (E : Engine σ) (self : SqliteHelper) (w : World σ)
    (sql : String) (h : self.m_db = none) :
    (execute E self w sql).2.2.calls = w.calls ++ [Call.sqlite3_exec none sql] ∧
    ((execute E self w sql).1 = Outcome.returned ↔
      (E.sqlite3_exec w.eng none sql).1 = SQLITE_OK) ∧
    (∀ e, (E.sqlite3_exec w.eng none sql).1 ≠ SQLITE_OK →
      (E.sqlite3_exec w.eng none sql).2.1 = some e →
      (execute E self w sql).1 = Outcome.threw ("can't execute sql: " ++ e)) ∧
    (execute E self w sql).1 ≠ Outcome.threw "db path is empty" ∧
    (execute E self w sql).1 ≠ Outcome.threw "can't open db" ∧
    (execute E self w sql).1 ≠ Outcome.threw "can't close db" := by
  have hc := execute_cases E self w sql
  rw [h] at hc
  obtain ⟨-, hcalls, -, hok, hmsg, hnull⟩ := hc
  have key : ∀ t : String, (∀ e : String, "can't execute sql: " ++ e ≠ t) →
      (execute E self w sql).1 ≠ Outcome.threw t := by
    intro t ht
    by_cases hrc : (E.sqlite3_exec w.eng none sql).1 = SQLITE_OK
    · rw [hok hrc]; simp
    · cases hm : (E.sqlite3_exec w.eng none sql).2.1 with
      | none => rw [hnull hrc hm]; simp
      | some e =>
        rw [hmsg e hrc hm]
        intro hh
        exact ht e (Outcome.threw.inj hh)
  refine ⟨hcalls, ⟨?_, hok⟩, hmsg, key _ (fun e => (execute_text_ne e).1),
    key _ (fun e => (execute_text_ne e).2.1), key _ (fun e => (execute_text_ne e).2.2)⟩
  intro hret
  by_contra hrc
  cases hm : (E.sqlite3_exec w.eng none sql).2.1 with
  | none => rw [hnull hrc hm] at hret; simp at hret
  | some e => rw [hmsg e hrc hm] at hret; simp at hret

/-- Witness of C2 (amended): the instance as first built, on an engine that
rejects the statement with a message. -/
theorem execute_null_handle_witness :
    getInstance.m_db = none ∧
    (execute rejectingEngine getInstance (World.initial ()) "SELEC 1").1 ≠
      Outcome.threw "db path is empty" :=
  ⟨rfl, (execute_null_handle rejectingEngine getInstance (World.initial ()) "SELEC 1" rfl).2.2.2.1⟩

/-- What `connect` does once the path is not empty, by the engine's answer. -/
theorem connect_cases {σ : Type} (E : Engine σ) (self : SqliteHelper) (w : World σ)
    (hp : self.m_dbPath ≠ "") :
    (connect E self w).2.1 =
      { m_dbPath := self.m_dbPath, m_db := (E.sqlite3_open w.eng self.m_dbPath self.m_db).2.1 } ∧
    (connect E self w).2.2.calls = w.calls ++ [Call.sqlite3_open self.m_dbPath] ∧
    (connect E self w).2.2.live = liveAfterOpen w.live
      (E.sqlite3_open w.eng self.m_dbPath self.m_db).1
      (E.sqlite3_open w.eng self.m_dbPath self.m_db).2.1 ∧
    ((E.sqlite3_open w.eng self.m_dbPath self.m_db).1 ≠ SQLITE_OK →
      (connect E self w).1 = Outcome.threw "can't open db") ∧
    ((E.sqlite3_open w.eng self.m_dbPath self.m_db).1 = SQLITE_OK →
      (connect E self w).1 = Outcome.returned) := by
  have hl : ¬ self.m_dbPath.length = 0 := fun h0 => hp ((length_eq_zero_iff _).mp h0)
  unfold connect
  rcases hx : E.sqlite3_open w.eng self.m_dbPath self.m_db with ⟨rc, out, eng1⟩
  by_cases hrc : rc = SQLITE_OK <;> simp [hl, hrc]

/-- Counterexample to C3: the path is set, the engine reports
`SQLITE_CANTOPEN` and leaves a connection object in the handle output;
`connect` throws "can't open db" and the instance holds that object. -/
theorem connect_failed_open_counterexample :
    (connect cantOpenEngine (setDbPath getInstance "/no/such/dir/a.db") (World.initial ())).1
      = Outcome.threw "can't open db" ∧
    (connect cantOpenEngine (setDbPath getInstance "/no/such/dir/a.db") (World.initial ())).2.1.m_db
      = some 7 := by
  refine ⟨?_, ?_⟩ <;> rfl

/-- C3 (amended): with a non-empty stored path and an open call that reports
a code other than `SQLITE_OK`, `connect` throws "can't open db", leaves the
stored path as it was, and the handle member holds exactly what the engine
wrote to the handle output (null only if the engine wrote null). -/
theorem connect_failed_open {σ : Type} (E : Engine σ) (self : SqliteHelper) (w : World σ)
    (hp : self.m_dbPath ≠ "")
    (hrc : (E.sqlite3_open w.eng self.m_dbPath self.m_db).1 ≠ SQLITE_OK) :
    (connect E self w).1 = Outcome.threw "can't open db" ∧
    (connect E self w).2.1.m_dbPath = self.m_dbPath ∧
    (connect E self w).2.1.m_db = (E.sqlite3_open w.eng self.m_dbPath self.m_db).2.1 := by
  obtain ⟨hs, -, -, hthrow, -⟩ := connect_cases E self w hp
  refine ⟨hthrow hrc, ?_, ?_⟩ <;> rw [hs]

/-- Witness of C3 (amended). -/
theorem connect_failed_open_witness :
    (connect cantOpenEngine (setDbPath getInstance "a.db") (World.initial ())).1
      = Outcome.threw "can't open db" ∧
    (connect cantOpenEngine (setDbPath getInstance "a.db") (World.initial ())).2.1.m_dbPath
      = "a.db" ∧
    (connect cantOpenEngine (setDbPath getInstance "a.db") (World.initial ())).2.1.m_db
      = some 7 :=
  connect_failed_open cantOpenEngine (setDbPath getInstance "a.db") (World.initial ())
    (by decide) (by decide)

/-- What `disconnect` does, by the engine's answer. -/
theorem disconnect_cases {σ : Type} (E : Engine σ) (self : SqliteHelper) (w : World σ) :
    (disconnect E self w).2.1 = self ∧
    (disconnect E self w).2.2.calls = w.calls ++ [Call.sqlite3_close self.m_db] ∧
    (disconnect E self w).2.2.live =
      liveAfterClose w.live (E.sqlite3_close w.eng self.m_db).1 self.m_db ∧
    ((E.sqlite3_close w.eng self.m_db).1 ≠ SQLITE_OK →
      (disconnect E self w).1 = Outcome.threw "can't close db") ∧
    ((E.sqlite3_close w.eng self.m_db).1 = SQLITE_OK →
      (disconnect E self w).1 = Outcome.returned) := by
  unfold disconnect
  rcases hx : E.sqlite3_close w.eng self.m_db with ⟨rc, eng1⟩
  by_cases hrc : rc = SQLITE_OK <;> simp [hrc]

/-- Counterexample to C5: after `setDbPath`, `connect` and a `disconnect`
whose close call reports `SQLITE_OK`, the instance still holds handle 1, and
the `execute` that follows is submitted to the engine with handle 1. -/
theorem disconnect_keeps_handle_counterexample :
    (run countingEngine [Op.setDbPath "a.db", Op.connect]
      (getInstance, World.initial 1)).1.m_db = some 1 ∧
    (step countingEngine (run countingEngine [Op.setDbPath "a.db", Op.connect]
      (getInstance, World.initial 1)) Op.disconnect).1 = Outcome.returned ∧
    (run countingEngine [Op.setDbPath "a.db", Op.connect, Op.disconnect]
      (getInstance, World.initial 1)).1.m_db = some 1 ∧
    (run countingEngine [Op.setDbPath "a.db", Op.connect, Op.disconnect, Op.execute "SELECT 1"]
      (getInstance, World.initial 1)).2.calls =
      [Call.sqlite3_open "a.db", Call.sqlite3_close (some 1),
        Call.sqlite3_exec (some 1) "SELECT 1"] := by
  refine ⟨?_, ?_, ?_, ?_⟩ <;> rfl

/-- C5 (amended): on an instance holding a handle, with a close call that
reports `SQLITE_OK`, `disconnect` returns without error after handing the
stored handle to the engine's close; it leaves the stored path and the handle
member as they were (the member is not reset to null). -/
theorem disconnect_ok {σ : Type} (E : Engine σ) (self : SqliteHelper) (w : World σ)
    (h : Handle) (hc : self.m_db = some h)
    (hrc : (E.sqlite3_close w.eng (some h)).1 = SQLITE_OK) :
    (disconnect E self w).1 = Outcome.returned ∧
    (disconnect E self w).2.2.calls = w.calls ++ [Call.sqlite3_close (some h)] ∧
    (disconnect E self w).2.1.m_dbPath = self.m_dbPath ∧
    (disconnect E self w).2.1.m_db = some h := by
  obtain ⟨hs, hcalls, -, -, hret⟩ := disconnect_cases E self w
  rw [hc] at hcalls hret
  refine ⟨hret hrc, hcalls, ?_, ?_⟩
  · rw [hs]
  · rw [hs, hc]

/-- Witness of C5 (amended). -/
theorem disconnect_ok_witness :
    (disconnect countingEngine { m_dbPath := "a.db", m_db := some 1 } (World.initial 2)).1
      = Outcome.returned ∧
    (disconnect countingEngine { m_dbPath := "a.db", m_db := some 1 } (World.initial 2)).2.2.calls
      = [] ++ [Call.sqlite3_close (some 1)] ∧
    (disconnect countingEngine { m_dbPath := "a.db", m_db := some 1 } (World.initial 2)).2.1.m_dbPath
      = "a.db" ∧
    (disconnect countingEngine { m_dbPath := "a.db", m_db := some 1 } (World.initial 2)).2.1.m_db
      = some 1 :=
  disconnect_ok countingEngine { m_dbPath := "a.db", m_db := some 1 } (World.initial 2) 1 rfl rfl

/-- On an instance holding a handle, `execute` hands the handle and the text
to the engine. It returns normally exactly when the engine reports
`SQLITE_OK`; when the engine reports another code and supplies its message,
`execute` throws "can't execute sql: " followed by that message, a text that
is not empty; the stored path and handle are unchanged in every case. The
case of another code with a null message is not covered here. -/
theorem execute_connected {σ : Type} (E : Engine σ) (self : SqliteHelper) (w : World σ)
    (sql : String) (h : Handle) (hc : self.m_db = some h) :
    (execute E self w sql).2.2.calls = w.calls ++ [Call.sqlite3_exec (some h) sql] ∧
    ((execute E self w sql).1 ≠ Outcome.returned ↔
      (E.sqlite3_exec w.eng (some h) sql).1 ≠ SQLITE_OK) ∧
    (∀ e, (E.sqlite3_exec w.eng (some h) sql).1 ≠ SQLITE_OK →
      (E.sqlite3_exec w.eng (some h) sql).2.1 = some e →
      (execute E self w sql).1 = Outcome.threw ("can't execute sql: " ++ e) ∧
      "can't execute sql: " ++ e ≠ "") ∧
    ((E.sqlite3_exec w.eng (some h) sql).1 = SQLITE_OK →
      (execute E self w sql).1 = Outcome.returned) ∧
    (execute E self w sql).2.1 = self := by
  have hx := execute_cases E self w sql
  rw [hc] at hx
  obtain ⟨hs, hcalls, -, hok, hmsg, hnull⟩ := hx
  refine ⟨hcalls, ⟨?_, ?_⟩, ?_, hok, hs⟩
  · intro hne hrc
    exact hne (hok hrc)
  · intro hrc
    cases hm : (E.sqlite3_exec w.eng (some h) sql).2.1 with
    | none => rw [hnull hrc hm]; simp
    | some e => rw [hmsg e hrc hm]; simp
  · intro e hrc hm
    exact ⟨hmsg e hrc hm, execute_text_ne_empty e⟩

/-- A statement the engine rejects with a message. -/
theorem execute_connected_rejecting :
    (execute rejectingEngine { m_dbPath := "a.db", m_db := some 1 } (World.initial ())
      "SELEC 1").1 = Outcome.threw "can't execute sql: near \"SELEC\": syntax error" :=
  ((execute_connected rejectingEngine { m_dbPath := "a.db", m_db := some 1 } (World.initial ())
    "SELEC 1" 1 rfl).2.2.1 "near \"SELEC\": syntax error" (by decide) rfl).1

/-- C6, at the code: the path is set, `connect` succeeds and the instance
holds handle 1; the engine then answers `sqlite3_exec` with `SQLITE_NOMEM` and
a null message. `execute` tests only the result code before it builds a
`std::string` from the message pointer (line 49), so the call ends in the
construction of a string from a null pointer: it throws no error that
carries a diagnostic text, where the claim has it fail with a non-empty
"can't execute sql: ..." error. -/
theorem execute_null_message :
    (run nomemEngine [Op.setDbPath "a.db", Op.connect] (getInstance, World.initial ())).1
      = { m_dbPath := "a.db", m_db := some 1 } ∧
    (nomemEngine.sqlite3_exec () (some 1) "INSERT INTO t VALUES (1)").1 ≠ SQLITE_OK ∧
    (step nomemEngine
      (run nomemEngine [Op.setDbPath "a.db", Op.connect] (getInstance, World.initial ()))
      (Op.execute "INSERT INTO t VALUES (1)")).1 = Outcome.undefined ∧
    ∀ t : String, (step nomemEngine
      (run nomemEngine [Op.setDbPath "a.db", Op.connect] (getInstance, World.initial ()))
      (Op.execute "INSERT INTO t VALUES (1)")).1 ≠ Outcome.threw t := by
  refine ⟨rfl, by decide, rfl, ?_⟩
  intro t h
  have h2 : Outcome.undefined = Outcome.threw t := h
  cases h2

/-- Counterexample to C10: the path is set to "a.db", `connect` succeeds, and
a later `setDbPath "b.db"` replaces the stored path. -/
theorem setDbPath_after_connect_counterexample :
    (run countingEngine [Op.setDbPath "a.db", Op.connect]
      (getInstance, World.initial 1)).1 = { m_dbPath := "a.db", m_db := some 1 } ∧
    (run countingEngine [Op.setDbPath "a.db", Op.connect, Op.setDbPath "b.db"]
      (getInstance, World.initial 1)).1.m_dbPath = "b.db" ∧
    "b.db" ≠ "a.db" := by
  refine ⟨?_, ?_, ?_⟩
  · rfl
  · rfl
  · decide

/-- C10 (amended): `setDbPath` is a plain assignment in every state. Called
after a `connect`, however that ended, it stores the new path, leaves the
handle as `connect` left it and makes no call to the engine; `connect`,
`disconnect` and `execute` never change the stored path. -/
theorem setDbPath_assigns {σ : Type} (E : Engine σ) (self : SqliteHelper) (w : World σ)
    (p sql : String) :
    (setDbPath (connect E self w).2.1 p).m_dbPath = p ∧
    (setDbPath (connect E self w).2.1 p).m_db = (connect E self w).2.1.m_db ∧
    (step E (connect E self w).2 (Op.setDbPath p)).2.2 = (connect E self w).2.2 ∧
    (connect E self w).2.1.m_dbPath = self.m_dbPath ∧
    (disconnect E self w).2.1.m_dbPath = self.m_dbPath ∧
    (execute E self w sql).2.1.m_dbPath = self.m_dbPath := by
  refine ⟨rfl, rfl, rfl, ?_, ?_, ?_⟩
  · by_cases hp : self.m_dbPath = ""
    · rw [connect_of_empty E self w hp]
    · rw [(connect_cases E self w hp).1]
  · rw [(disconnect_cases E self w).1]
  · rw [(execute_cases E self w sql).1]

/-- One call keeps `HoldsLive`, provided a `connect` is issued with no handle
open. -/
theorem step_holdsLive {σ : Type} (E : Engine σ) (c : SqliteHelper × World σ) (op : Op)
    (hinv : HoldsLive c) (hg : op = Op.connect → c.2.live = []) :
    HoldsLive (step E c op).2 := by
  cases op with
  | setDbPath p => exact hinv
  | connect =>
    have hl : c.2.live = [] := hg rfl
    show HoldsLive (connect E c.1 c.2).2
    by_cases hp : c.1.m_dbPath = ""
    · rw [connect_of_empty E c.1 c.2 hp]
      exact hinv
    · obtain ⟨hs, -, hlive, -, -⟩ := connect_cases E c.1 c.2 hp
      unfold HoldsLive
      rw [hlive, hs, hl]
      cases hout : (E.sqlite3_open c.2.eng c.1.m_dbPath c.1.m_db).2.1 with
      | none => left; rfl
      | some h =>
        by_cases hrc : (E.sqlite3_open c.2.eng c.1.m_dbPath c.1.m_db).1 = SQLITE_OK
        · right; exact ⟨h, by simp [liveAfterOpen, hrc], rfl⟩
        · left; simp [liveAfterOpen, hrc]
  | disconnect =>
    show HoldsLive (disconnect E c.1 c.2).2
    obtain ⟨hs, -, hlive, -, -⟩ := disconnect_cases E c.1 c.2
    unfold HoldsLive
    rw [hlive, hs]
    rcases hinv with h0 | ⟨h, h1, h2⟩
    · left
      rw [h0]
      unfold liveAfterClose
      cases c.1.m_db <;> simp
    · rw [h1, h2]
      by_cases hrc : (E.sqlite3_close c.2.eng (some h)).1 = SQLITE_OK
      · left; simp [liveAfterClose, hrc]
      · right; exact ⟨h, by simp [liveAfterClose, hrc], rfl⟩
  | execute sql =>
    show HoldsLive (execute E c.1 c.2 sql).2
    obtain ⟨hs, -, hlive, -, -, -⟩ := execute_cases E c.1 c.2 sql
    unfold HoldsLive
    rw [hlive, hs]
    exact hinv

/-- Every configuration of a sequence whose `connect` calls are issued with no
handle open keeps `HoldsLive`. -/
theorem trace_holdsLive {σ : Type} (E : Engine σ) (ops : List Op) :
    ∀ c : SqliteHelper × World σ, HoldsLive c → connectOnlyWhenClosed E ops c = true →
      ∀ d ∈ trace E ops c, HoldsLive d := by
  induction ops with
  | nil =>
    intro c hinv _ d hd
    simp [trace] at hd
    rw [hd]; exact hinv
  | cons op ops ih =>
    intro c hinv hg d hd
    simp only [connectOnlyWhenClosed, Bool.and_eq_true] at hg
    obtain ⟨hg1, hg2⟩ := hg
    simp only [trace, List.mem_cons] at hd
    rcases hd with hd | hd
    · rw [hd]; exact hinv
    · by_cases hdef : (step E c op).1.defined = true
      · rw [if_pos hdef] at hd hg2
        refine ih (step E c op).2 (step_holdsLive E c op hinv ?_) hg2 d hd
        intro hop
        subst hop
        simpa using hg1
      · rw [if_neg hdef] at hd
        simp at hd

/-- The configuration after a sequence is one of those it passes through. -/
theorem run_mem_trace {σ : Type} (E : Engine σ) (ops : List Op) :
    ∀ c : SqliteHelper × World σ, run E ops c ∈ trace E ops c := by
  induction ops with
  | nil => intro c; simp [run, trace]
  | cons op ops ih =>
    intro c
    by_cases hdef : (step E c op).1.defined = true
    · simp only [run, trace, if_pos hdef]
      exact List.mem_cons_of_mem _ (ih _)
    · simp only [run, trace, if_neg hdef]
      exact List.mem_cons_self _ _

/-- Counterexample to C4: the path is set and `connect` is called twice; the
engine opens handle 1, then handle 2, and no close call is made, so two
handles are open; the instance holds the second only. -/
theorem connect_twice_counterexample :
    (run countingEngine [Op.setDbPath "a.db", Op.connect, Op.connect]
      (getInstance, World.initial 1)).2.live = [2, 1] ∧
    (run countingEngine [Op.setDbPath "a.db", Op.connect, Op.connect]
      (getInstance, World.initial 1)).2.calls =
      [Call.sqlite3_open "a.db", Call.sqlite3_open "a.db"] ∧
    (run countingEngine [Op.setDbPath "a.db", Op.connect, Op.connect]
      (getInstance, World.initial 1)).1.m_db = some 2 := by
  refine ⟨?_, ?_, ?_⟩ <;> rfl

/-- C4 (amended): starting from the initial state, in every finite sequence of
`setDbPath`, `connect`, `disconnect` and `execute` calls in which `connect` is
issued only while no handle is open, at most one handle is open at every
point of the sequence, and it is the one the instance holds. -/
theorem at_most_one_open_handle {σ : Type} (E : Engine σ) (eng0 : σ) (ops : List Op)
    (hg : connectOnlyWhenClosed E ops (getInstance, World.initial eng0) = true) :
    ∀ d ∈ trace E ops (getInstance, World.initial eng0),
      d.2.live.length ≤ 1 ∧ ∀ h ∈ d.2.live, d.1.m_db = some h := by
  intro d hd
  have hinv : HoldsLive d :=
    trace_holdsLive E ops (getInstance, World.initial eng0) (Or.inl rfl) hg d hd
  rcases hinv with h0 | ⟨h, h1, h2⟩
  · rw [h0]; simp
  · rw [h1]; simp [h2]

/-- Witness of C4 (amended): connect, execute, disconnect, connect again. -/
theorem at_most_one_open_handle_witness :
    connectOnlyWhenClosed countingEngine
      [Op.setDbPath "a.db", Op.connect, Op.execute "SELECT 1", Op.disconnect, Op.connect]
      (getInstance, World.initial 1) = true ∧
    (run countingEngine
      [Op.setDbPath "a.db", Op.connect, Op.execute "SELECT 1", Op.disconnect, Op.connect]
      (getInstance, World.initial 1)).2.live.length ≤ 1 :=
  ⟨rfl, (at_most_one_open_handle countingEngine 1
    [Op.setDbPath "a.db", Op.connect, Op.execute "SELECT 1", Op.disconnect, Op.connect] rfl
    _ (run_mem_trace countingEngine _ _)).1⟩

end Sqlite

/-! ## Theorems: BoostLogger -/

namespace Log

/-- C9: for each of the six severities `operator<<` appends exactly its
lowercase label to the stream; two severities with the same label are the
same severity; and the enumerators are ordered as they are declared,
trace < debug < info < warning < error < fatal. -/
theorem operator_shl_labels (strm : String) :
    operator_shl strm severity_level.trace.toInt = strm ++ "trace" ∧
    operator_shl strm severity_level.debug.toInt = strm ++ "debug" ∧
    operator_shl strm severity_level.info.toInt = strm ++ "info" ∧
    operator_shl strm severity_level.warning.toInt = strm ++ "warning" ∧
    operator_shl strm severity_level.error.toInt = strm ++ "error" ∧
    operator_shl strm severity_level.fatal.toInt = strm ++ "fatal" ∧
    (∀ a b : severity_level,
      operator_shl "" a.toInt = operator_shl "" b.toInt → a = b) ∧
    severity_level.trace.toInt < severity_level.debug.toInt ∧
    severity_level.debug.toInt < severity_level.info.toInt ∧
    severity_level.info.toInt < severity_level.warning.toInt ∧
    severity_level.warning.toInt < severity_level.error.toInt ∧
    severity_level.error.toInt < severity_level.fatal.toInt := by
  refine ⟨rfl, rfl, rfl, rfl, rfl, rfl, ?_, by decide, by decide, by decide, by decide,
    by decide⟩
  intro a b
  cases a <;> cases b <;> decide

/-- The format string of `initFormat`, parsed. -/
theorem parse_format_template :
    parse_format "[%1%] [%2%] [%3%] [%4%] [%5%] %6%".data [] none =
      [format_element.literal "[", format_element.positional 1,
       format_element.literal "] [", format_element.positional 2,
       format_element.literal "] [", format_element.positional 3,
       format_element.literal "] [", format_element.positional 4,
       format_element.literal "] [", format_element.positional 5,
       format_element.literal "] ", format_element.positional 6] := by
  decide

/-- The line the format of `initFormat` writes for any record: the six
placeholders in order, each writing its value or nothing. -/
theorem initFormat_line (self : BoostLogger) (c : core) (r : record) :
    (initFormat self c).1.m_format.map (fun f => f r) =
      some ("[" ++ put (attr_ptime "TimeStamp" r) ++ "] [" ++
        put (attr_thread_id "ThreadID" r) ++ "] [" ++
        put ((attr_trivial_severity "Severity" r).map trivial.to_string) ++ "] [" ++
        put (attr_process_id "ProcessID" r) ++ "] [" ++
        put (attr_process_name "ProcessName" r) ++ "] " ++ r.message) := by
  unfold initFormat expressions_format
  rw [Option.map_some', parse_format_template]
  simp [String.join, String.append_assoc]

/-- For a record that carries "Severity" under the type the format reads,
`boost::log::trivial::severity_level`, the format built in `initFormat` writes
the six fields in order, the severity as the label Boost.Log gives it. The
logger of this class writes no such record. -/
theorem initFormat_fixed_record (self : BoostLogger) (c : core)
    (ts tid : String) (s : trivial.severity_level) (pid pn m : String) :
    (initFormat self c).1.m_format.map (fun f => f (fixed_record ts tid s pid pn m)) =
      some ("[" ++ ts ++ "] [" ++ tid ++ "] [" ++ trivial.to_string s ++ "] [" ++ pid ++
        "] [" ++ pn ++ "] " ++ m) := by
  rw [initFormat_line]
  rfl

/-- A record written through the logger has no "Severity" value of the type
`boost::log::trivial::severity_level`: the one it carries is a
`severity_level` of this file. -/
theorem attr_trivial_severity_open_record (level : severity_level) (message : String)
    (ambient : List (String × attribute_value)) :
    attr_trivial_severity "Severity" (open_record level message ambient) = none := by
  simp [attr_trivial_severity, record.find, open_record, List.find?]

/-- After `init` the core holds the file sink and the console sink, in that
order, and both hold the one filter and the one format of the members. -/
theorem init_shares_filter_and_format :
    (init BoostLogger.fresh core.empty).2.sinks.map (fun s => s.m_backend) =
      [backend.text_file, backend.text_ostream_clog] ∧
    ∀ s ∈ (init BoostLogger.fresh core.empty).2.sinks,
      s.m_filter = (init BoostLogger.fresh core.empty).1.m_filter ∧
      s.m_formatter = (init BoostLogger.fresh core.empty).1.m_format := by
  refine ⟨rfl, ?_⟩
  intro s hs
  simp only [init, initConsoleSink, initFileSink, initFormat, initFilter, core.empty,
    BoostLogger.fresh, List.nil_append, List.cons_append, List.mem_cons, List.mem_singleton,
    List.not_mem_nil, or_false] at hs
  rcases hs with hs | hs <;> subst hs <;> exact ⟨rfl, rfl⟩

/-- The filter of `initFilter` applies the threshold `info` to a "Severity"
value of the type it reads, `boost::log::trivial::severity_level`. -/
theorem initFilter_on_trivial (self : BoostLogger) (s : trivial.severity_level)
    (rest : List (String × attribute_value)) (m : String) :
    (initFilter self).m_filter.map (fun f =>
      f { attribute_values := ("Severity", attribute_value.trivial_severity s) :: rest,
          message := m }) =
      some (decide (trivial.severity_level.info.toInt ≤ s.toInt)) := by
  simp [initFilter, attr_trivial_severity, record.find, List.find?]

/-- C7, at the code: for every severity (info, warning, error and fatal
included) and every message written through the logger after `init`, the
shared filter finds no `boost::log::trivial::severity_level` under "Severity"
and rejects the record: neither the file sink nor the console sink accepts
it, and nothing is written. -/
theorem write_after_init_rejected (level : severity_level) (message : String)
    (ambient : List (String × attribute_value)) :
    (init BoostLogger.fresh core.empty).2.sinks.map
        (fun s => (s.m_backend, s.accepts (open_record level message ambient))) =
      [(backend.text_file, false), (backend.text_ostream_clog, false)] ∧
    write (init BoostLogger.fresh core.empty).2 level message ambient = [] := by
  have h := attr_trivial_severity_open_record level message ambient
  constructor
  · simp [init, initConsoleSink, initFileSink, initFormat, initFilter, core.empty,
      BoostLogger.fresh, sink.accepts, h]
  · simp [write, init, initConsoleSink, initFileSink, initFormat, initFilter, core.empty,
      BoostLogger.fresh, sink.accepts, h]

/-- The labels Boost.Log writes for its own enumeration. -/
theorem trivial_to_string_labels :
    [trivial.severity_level.trace, trivial.severity_level.debug, trivial.severity_level.info,
      trivial.severity_level.warning, trivial.severity_level.error,
      trivial.severity_level.fatal].map trivial.to_string =
    ["trace", "debug", "info", "warning", "error", "fatal"] := by
  rfl

/-- The label `operator<<` writes for a severity is not empty. -/
theorem operator_shl_data_ne_nil (level : severity_level) :
    (operator_shl "" level.toInt).data ≠ [] := by
  cases level <;> decide

/-- C8, at the code: for every severity s of the enumeration of this file, time
stamp text ts, thread id tid, process id pid, process name pn and message m,
the format built in `initFormat` writes, for the record the logger makes of
them, "[" ts "] [" tid "] [] [" pid "] [" pn "] " m. The six fields are in
order and bracketed as the claim says, but the severity field is empty: the
format reads "Severity" as a `boost::log::trivial::severity_level` (line 158)
and the record carries a `severity_level`. The line differs from the one the
claim gives, which has the label `operator<<` writes for s in that field. -/
theorem initFormat_logger_record (self : BoostLogger) (c : core) (s : severity_level)
    (ts tid pid pn m : String) :
    (initFormat self c).1.m_format.map (fun f => f (open_record s m
      [ ("TimeStamp", attribute_value.ptime ts), ("ThreadID", attribute_value.thread_id tid),
        ("ProcessID", attribute_value.process_id pid),
        ("ProcessName", attribute_value.process_name pn) ])) =
      some ("[" ++ ts ++ "] [" ++ tid ++ "] [" ++ "" ++ "] [" ++ pid ++
        "] [" ++ pn ++ "] " ++ m) ∧
    "[" ++ ts ++ "] [" ++ tid ++ "] [" ++ "" ++ "] [" ++ pid ++ "] [" ++ pn ++ "] " ++ m ≠
      "[" ++ ts ++ "] [" ++ tid ++ "] [" ++ operator_shl "" s.toInt ++ "] [" ++ pid ++
        "] [" ++ pn ++ "] " ++ m := by
  constructor
  · rw [initFormat_line]
    rfl
  · intro h
    have h2 := congrArg String.data h
    simp only [String.data_append, List.append_assoc, List.append_cancel_left_eq] at h2
    have h3 : ("" : String).data ++ ("] [".data ++ (pid.data ++ ("] [".data ++ (pn.data ++
        ("] ".data ++ m.data))))) =
        (operator_shl "" s.toInt).data ++ ("] [".data ++ (pid.data ++ ("] [".data ++
        (pn.data ++ ("] ".data ++ m.data))))) := h2
    have h4 := List.append_cancel_right h3
    exact operator_shl_data_ne_nil s h4.symm

end Log
